import Mathlib

/-!
Verification of the concurrent object deployer `deploy_objects.py`.

The deployer discovers SQL files, runs each file's statements against a
shared backend session from a fixed-size worker pool, and aggregates one
result record per file.  We embed the per-file executor
(`process_single_view`), the orchestrator (`deploy_views_threaded`) and the
exit-code logic of `main` as pure Lean functions.  External collaborators —
the statement splitter (`split_statements`) and the execution backend
(`session.sql(...).collect()`) — are parameters: a splitter is a function
from the file text to the list of statements, a backend is a function from a
statement to `Except String Unit` whose `error` carries the exception
message.  Worker threads are modelled by a thread-name assignment
`Nat → String` (file index to worker name) together with a completion-order
permutation, which is exactly the freedom `ThreadPoolExecutor` +
`as_completed` have.
-/

namespace DeployObjects

/-- Python whitespace characters recognised by `str.strip` and by `\s` in the
header pattern (ASCII range): space, tab, newline, carriage return, vertical
tab, form feed. -/
def pyIsSpace (c : Char) : Bool :=
  c = ' ' || c = '\t' || c = '\n' || c = '\r' || c = Char.ofNat 11 || c = Char.ofNat 12

/-- Python `str.strip()`: drop whitespace from both ends. -/
def pyStrip (s : String) : String :=
  ⟨((s.toList.dropWhile pyIsSpace).reverse.dropWhile pyIsSpace).reverse⟩

/-- One step per character of Python `str.replace`: replace every
(non-overlapping, leftmost-first) occurrence of `pat` by `rep`, continuing
after the replacement.  Fuel is the length of the scanned list. -/
def replFuel (pat rep : List Char) : Nat → List Char → List Char
  | 0, s => s
  | _ + 1, [] => []
  | fuel + 1, c :: cs =>
    if pat.isPrefixOf (c :: cs) then
      rep ++ replFuel pat rep fuel ((c :: cs).drop pat.length)
    else
      c :: replFuel pat rep fuel cs

/-- Python `s.replace(pat, rep)` for a nonempty `pat` (the script only uses
`".sql"` and `"\n"`). -/
def pyReplaceAll (s pat rep : String) : String :=
  if pat.toList = [] then s
  else ⟨replFuel pat.toList rep.toList s.toList.length s.toList⟩

/-- Python `os.path.basename`: the part of the path after the last slash. -/
def pyBasename (p : String) : String :=
  ⟨(p.toList.reverse.takeWhile (fun c => c ≠ '/')).reverse⟩

/-- Python `str.lower()`: lower-case every character (ASCII letters suffice
for the strings involved). -/
def pyLower (s : String) : String := ⟨s.toList.map Char.toLower⟩

/-- True when `needle` occurs as a contiguous sublist of the second argument. -/
def pyContainsList (needle : List Char) : List Char → Bool
  | [] => needle.isEmpty
  | c :: cs => needle.isPrefixOf (c :: cs) || pyContainsList needle cs

/-- Python `needle in hay` for strings: substring containment. -/
def pyContains (hay needle : String) : Bool :=
  pyContainsList needle.toList hay.toList

/-- The object name the script derives from a file path:
`os.path.basename(item_path).replace(".sql", "")` — every occurrence of
`".sql"` removed, not only a trailing extension (lines 45 and 156). -/
def derivedName (p : String) : String :=
  pyReplaceAll (pyBasename p) ".sql" ""

/-! ### The header pattern

`re.match(r'CREATE\s+(VIEW|SCHEMA|FORCE VIEW|TABLE)\s+"([^"]+)"\."([^"]+)"',
sql, re.IGNORECASE)` — anchored at the start of the text.  The four
alternatives begin with distinct letters and each `\s+` / `[^"]+` is followed
by a character its class excludes, so the backtracking search is equivalent
to the deterministic maximal-munch matcher below. -/

/-- Match `pat` as a case-insensitive literal prefix of `s`; return the rest. -/
def matchLitCI : List Char → List Char → Option (List Char)
  | [], s => some s
  | _ :: _, [] => none
  | p :: ps, c :: cs => if c.toLower = p.toLower then matchLitCI ps cs else none

/-- Match `\s+`: at least one whitespace character, maximal munch. -/
def ws1 : List Char → Option (List Char)
  | [] => none
  | c :: cs => if pyIsSpace c then some (cs.dropWhile pyIsSpace) else none

/-- The alternation `(VIEW|SCHEMA|FORCE VIEW|TABLE)`, tried in pattern order;
returns `group(1).upper()` (the literal itself) and the rest. -/
def matchKind (s : List Char) : Option (String × List Char) :=
  match matchLitCI "VIEW".toList s with
  | some r => some ("VIEW", r)
  | none =>
    match matchLitCI "SCHEMA".toList s with
    | some r => some ("SCHEMA", r)
    | none =>
      match matchLitCI "FORCE VIEW".toList s with
      | some r => some ("FORCE VIEW", r)
      | none =>
        match matchLitCI "TABLE".toList s with
        | some r => some ("TABLE", r)
        | none => none

/-- Match `"([^"]+)"`: a quote, at least one non-quote character (the group),
a closing quote. -/
def quotedGroup (s : List Char) : Option (List Char × List Char) :=
  match s with
  | '"' :: r =>
    match r.span (fun c => c ≠ '"') with
    | (g, r2) =>
      if g = [] then none
      else
        match r2 with
        | '"' :: r3 => some (g, r3)
        | _ => none
  | _ => none

/-- The whole header match of line 53: on success, `(kind.upper(), namespace,
name)` — groups 1 (upper-cased), 2 and 3. -/
def headerMatch (sql : String) : Option (String × String × String) :=
  match matchLitCI "CREATE".toList sql.toList with
  | none => none
  | some r1 =>
    match ws1 r1 with
    | none => none
    | some r2 =>
      match matchKind r2 with
      | none => none
      | some (kind, r3) =>
        match ws1 r3 with
        | none => none
        | some r4 =>
          match quotedGroup r4 with
          | none => none
          | some (ns, r5) =>
            match r5 with
            | '.' :: r6 =>
              match quotedGroup r6 with
              | none => none
              | some (nm, _) => some (kind, ⟨ns⟩, ⟨nm⟩)
            | _ => none

/-! ### The data model -/

/-- One deployment result record (the `table_info` dictionary): namespace,
object name, status (`ok`/`empty`/`already`/`error`), error detail, source
file path and worker thread name. -/
structure TableInfo where
  schema : String
  view_name : String
  status : String
  exception : Option String
  file_path : String
  thread_id : String
deriving DecidableEq, Repr

/-- One entry of `failed_sql`: a failed statement with its context. -/
structure FailedStatement where
  schema : String
  view_name : String
  sql : String
  error : String
  file_path : String
  thread_id : String
deriving DecidableEq, Repr

/-- The message of the `UnboundLocalError` the interpreter raises when the
`except` block of `process_single_view` touches `table_info` although the
exception (e.g. the invalid-header `ValueError` of line 55) was raised before
line 61 assigned `table_info`.  This exception escapes the executor and is
what the orchestrator's fallback records. -/
def unboundLocalMsg : String :=
  "local variable table_info referenced before assignment"

/-- The `for sqlitem in split_statements(...)` loop of lines 77-82: execute
statements in order; on the first backend error return
`(last_sql, raw message)` where `last_sql = sqlitem.strip()` was set just
before the failing call; `none` when every statement succeeds. -/
def runStatements (exec : String → Except String Unit) :
    List String → Option (String × String)
  | [] => none
  | s :: rest =>
    match exec s with
    | Except.ok _ => runStatements exec rest
    | Except.error e => some (pyStrip s, e)

/-- The statements the loop actually passes to the backend, in order: every
statement up to and including the first failing one. -/
def executedStatements (exec : String → Except String Unit) :
    List String → List String
  | [] => []
  | s :: rest =>
    match exec s with
    | Except.ok _ => s :: executedStatements exec rest
    | Except.error _ => [s]

/-- The per-file executor `process_single_view` (lines 33-109) on an already
read file text `sql`.  `Except.error` models the executor itself raising (the
`UnboundLocalError` path); `Except.ok` carries the returned `table_info` and
the `failed_sql` entries this call appended. -/
def process_single_view (split : String → List String)
    (exec : String → Except String Unit)
    (thread item_path sql : String) :
    Except String (TableInfo × List FailedStatement) :=
  match headerMatch sql with
  | none => Except.error unboundLocalMsg
  | some (_, item_schema, item_name) =>
    let info : TableInfo :=
      { schema := item_schema, view_name := item_name, status := "ok",
        exception := none, file_path := item_path, thread_id := thread }
    if pyStrip sql = "" then
      Except.ok ({ info with status := "empty" }, [])
    else
      match runStatements exec (split sql) with
      | none => Except.ok (info, [])
      | some (last_sql, e) =>
        let error_msg := pyReplaceAll e "\n" " "
        if pyContains (pyLower error_msg) "already exists" = true then
          Except.ok ({ info with status := "already", exception := some error_msg }, [])
        else
          Except.ok ({ info with status := "error", exception := some error_msg },
            if last_sql ≠ "" then
              [{ schema := item_schema, view_name := item_name, sql := last_sql,
                 error := error_msg, file_path := item_path, thread_id := thread }]
            else [])

/-! ### The orchestrator -/

/-- The result the orchestrator records for one file (lines 145-161): on a
normal return, the executor's `table_info`; when the executor raised, the
synthesized fallback record — namespace `"unknown"`, the filename-derived
name, status `"error"`, the stringified exception, and the collecting
(main) thread's name. -/
def resultForFile (split : String → List String)
    (exec : String → Except String Unit)
    (thread path sql : String) : TableInfo × List FailedStatement :=
  match process_single_view split exec thread path sql with
  | Except.ok r => r
  | Except.error exc =>
    ({ schema := "unknown", view_name := derivedName path, status := "error",
       exception := some exc, file_path := path, thread_id := "MainThread" }, [])

/-- The name `ThreadPoolExecutor(thread_name_prefix="ViewWorker")` gives its
`k`-th worker thread. -/
def workerName (k : Nat) : String := "ViewWorker_" ++ toString k

/-- One result per discovered file, in submission order: file `i` (paired
with its text) is processed on the worker `assign i` names.  `views` is the
discovered list, each path with the text read from it. -/
def deployReport (split : String → List String)
    (exec : String → Except String Unit)
    (assign : Nat → String) : Nat → List (String × String) → List TableInfo
  | _, [] => []
  | i, pc :: rest =>
    (resultForFile split exec (assign i) pc.1 pc.2).1 ::
      deployReport split exec assign (i + 1) rest

/-- The possible contents of `deploy_info` after `deploy_views_threaded` ran
with a pool of `n` workers: some assignment of files to the pool's workers
(worker indices below `n`), collected in some completion order (a permutation
of submission order). -/
def RunOutcome (split : String → List String)
    (exec : String → Except String Unit)
    (n : Nat) (views : List (String × String)) (out : List TableInfo) : Prop :=
  ∃ assign : Nat → Nat, (∀ i, assign i < n) ∧
    out.Perm (deployReport split exec (fun i => workerName (assign i)) 0 views)

/-- The exit-code computation of `main` (lines 286-292): 1 when at least one
result has status `"error"`, 0 otherwise. -/
def mainExitCode (results : List TableInfo) : Nat :=
  if 0 < (results.filter (fun r => r.status == "error")).length then 1 else 0

/-- What one completed run observes beyond the results list: whether the
no-files warning was printed, and whether the report file was written. -/
structure MainRun where
  exitCode : Nat
  results : List TableInfo
  warnedNoFiles : Bool
  reportWritten : Bool
deriving DecidableEq, Repr

/-- The orchestrator `deploy_views_threaded` (lines 111-166) in submission order: with no
matching files it warns and returns the empty list without writing the
report; otherwise it processes every file and then attempts the report write
(`writeOk` says whether that write succeeds — line 181 swallows a failure). -/
def deploy_views_threaded (split : String → List String)
    (exec : String → Except String Unit) (assign : Nat → String)
    (views : List (String × String)) (writeOk : Bool) :
    List TableInfo × Bool × Bool :=
  if views = [] then ([], true, false)
  else (deployReport split exec assign 0 views, false, writeOk)

/-- A completed run of `main` (no fatal startup failure, no interrupt):
deploy, then compute the exit code from the results alone. -/
def pyMain (split : String → List String)
    (exec : String → Except String Unit) (assign : Nat → String)
    (views : List (String × String)) (writeOk : Bool) : MainRun :=
  match deploy_views_threaded split exec assign views writeOk with
  | (results, warned, written) =>
    { exitCode := mainExitCode results, results := results,
      warnedNoFiles := warned, reportWritten := written }

/-- Forget which worker produced a result (blank the thread name). -/
def stripThread (r : TableInfo) : TableInfo := { r with thread_id := "" }

/-! ### Helper lemmas -/

theorem matchLitCI_cons_some (p : Char) (ps l r : List Char)
    (h : matchLitCI (p :: ps) l = some r) :
    ∃ c cs, l = c :: cs ∧ c.toLower = p.toLower := by
  cases l with
  | nil => simp [matchLitCI] at h
  | cons c cs =>
    by_cases hcp : c.toLower = p.toLower
    · exact ⟨c, cs, rfl, hcp⟩
    · simp [matchLitCI, hcp] at h

theorem toLower_c_not_space (c : Char) (h : c.toLower = 'c') :
    pyIsSpace c = false := by
  by_contra hs
  have hsp : pyIsSpace c = true := by revert hs; cases pyIsSpace c <;> simp
  have hd : ((((c = ' ' ∨ c = '\t') ∨ c = '\n') ∨ c = '\r') ∨
      c = Char.ofNat 11) ∨ c = Char.ofNat 12 := by
    simpa [pyIsSpace] using hsp
  rcases hd with ((((h1 | h1) | h1) | h1) | h1) | h1 <;> subst h1 <;>
    exact absurd h (by decide)

/-- A text whose header matched cannot be whitespace-only: the match starts
with a literal `C`/`c`, which `strip` keeps.  Hence line 71's
`sql.strip() == ""` check is unreachable once line 53's match succeeded. -/
theorem headerMatch_strip_ne (sql : String) (x : String × String × String)
    (h : headerMatch sql = some x) : pyStrip sql ≠ "" := by
  have h6 : "CREATE".toList = 'C' :: 'R' :: 'E' :: 'A' :: 'T' :: 'E' :: [] := rfl
  have hm : ∃ r1, matchLitCI "CREATE".toList sql.toList = some r1 := by
    unfold headerMatch at h
    rcases hx : matchLitCI "CREATE".toList sql.toList with _ | r1
    · rw [hx] at h; exact absurd h (by simp)
    · exact ⟨r1, rfl⟩
  obtain ⟨r1, hr1⟩ := hm
  rw [h6] at hr1
  obtain ⟨c, cs, hl, hlow⟩ := matchLitCI_cons_some _ _ _ _ hr1
  have hlow2 : c.toLower = 'c' := by rw [hlow]; decide
  have hns : pyIsSpace c = false := toLower_c_not_space c hlow2
  intro hempty
  have hdata : ((sql.toList.dropWhile pyIsSpace).reverse.dropWhile
      pyIsSpace).reverse = [] := congrArg String.data hempty
  rw [hl] at hdata
  rw [List.dropWhile_cons] at hdata
  rw [if_neg (by simp [hns])] at hdata
  have hnil : (c :: cs).reverse.dropWhile pyIsSpace = [] := by
    have := congrArg List.reverse hdata
    simpa using this
  have hall := List.dropWhile_eq_nil_iff.mp hnil
  have := hall c (by simp)
  rw [hns] at this
  exact absurd this (by simp)

/-- Whenever the executor returns normally, the returned status is not
`"empty"`: the `"empty"` branch sits behind both a successful header match
and `sql.strip() == ""`, which exclude each other. -/
theorem process_ok_status_ne_empty (split : String → List String)
    (exec : String → Except String Unit) (t p sql : String)
    (r : TableInfo × List FailedStatement)
    (h : process_single_view split exec t p sql = Except.ok r) :
    r.1.status ≠ "empty" := by
  unfold process_single_view at h
  rcases hh : headerMatch sql with _ | ⟨k, ns, nm⟩
  · rw [hh] at h; exact absurd h (by simp)
  · rw [hh] at h
    dsimp only at h
    have hne := headerMatch_strip_ne sql _ hh
    rw [if_neg hne] at h
    rcases hr : runStatements exec (split sql) with _ | ⟨ls, e⟩
    · rw [hr] at h
      simp only [Except.ok.injEq] at h
      rw [← h]
      simp
    · rw [hr] at h
      dsimp only at h
      by_cases hc : pyContains (pyLower (pyReplaceAll e "\n" " ")) "already exists" = true
      · rw [if_pos hc] at h
        simp only [Except.ok.injEq] at h
        rw [← h]
        simp
      · rw [if_neg hc] at h
        simp only [Except.ok.injEq] at h
        rw [← h]
        simp

theorem mainExitCode_eq_one (l : List TableInfo) :
    mainExitCode l = 1 ↔ ∃ r ∈ l, r.status = "error" := by
  unfold mainExitCode
  by_cases h : 0 < (l.filter (fun r => r.status == "error")).length
  · rw [if_pos h]
    simp only [true_iff]
    rw [List.length_pos] at h
    rcases hfe : l.filter (fun r => r.status == "error") with _ | ⟨a, rest⟩
    · exact absurd hfe h
    · have ha : a ∈ l.filter (fun r => r.status == "error") := by rw [hfe]; simp
      rw [List.mem_filter] at ha
      exact ⟨a, ha.1, by simpa using ha.2⟩
  · rw [if_neg h]
    simp only [Nat.zero_ne_one, false_iff]
    rintro ⟨r, hr, hst⟩
    rw [List.length_pos] at h
    have : l.filter (fun x => x.status == "error") = [] := by
      by_contra hne
      exact h hne
    rw [List.filter_eq_nil_iff] at this
    exact this r hr (by simpa using hst)

theorem deployReport_length (split : String → List String)
    (exec : String → Except String Unit) (assign : Nat → String)
    (views : List (String × String)) :
    ∀ i, (deployReport split exec assign i views).length = views.length := by
  induction views with
  | nil => intro i; rfl
  | cons pc rest ih => intro i; simp [deployReport, ih]

theorem runStatements_append (exec : String → Except String Unit)
    (pre l : List String) (hpre : ∀ s ∈ pre, exec s = Except.ok ()) :
    runStatements exec (pre ++ l) = runStatements exec l := by
  induction pre with
  | nil => rfl
  | cons s rest ih =>
    have hs : exec s = Except.ok () := hpre s (by simp)
    have hrest : ∀ x ∈ rest, exec x = Except.ok () :=
      fun x hx => hpre x (by simp [hx])
    simp [runStatements, hs, ih hrest]

theorem executedStatements_append (exec : String → Except String Unit)
    (pre : List String) (b : String) (l : List String)
    (hpre : ∀ s ∈ pre, exec s = Except.ok ()) :
    executedStatements exec (pre ++ b :: l) =
      pre ++ executedStatements exec (b :: l) := by
  induction pre with
  | nil => rfl
  | cons s rest ih =>
    have hs : exec s = Except.ok () := hpre s (by simp)
    have hrest : ∀ x ∈ rest, exec x = Except.ok () :=
      fun x hx => hpre x (by simp [hx])
    simp [executedStatements, hs, ih hrest]

/-- The record the orchestrator appends for a file does not depend on the
worker thread once the thread name is blanked. -/
theorem stripThread_resultForFile (split : String → List String)
    (exec : String → Except String Unit) (t t2 p c : String) :
    stripThread (resultForFile split exec t p c).1 =
      stripThread (resultForFile split exec t2 p c).1 := by
  unfold resultForFile process_single_view
  rcases hh : headerMatch c with _ | ⟨k, ns, nm⟩
  · rfl
  · by_cases hs : pyStrip c = ""
    · simp [hs, stripThread]
    · rcases hr : runStatements exec (split c) with _ | ⟨ls, e⟩
      · simp [hs, hr, stripThread]
      · by_cases hc : pyContains (pyLower (pyReplaceAll e "\n" " ")) "already exists" = true
        · simp [hs, hr, hc, stripThread]
        · simp [hs, hr, hc, stripThread]

/-- After blanking the thread names, a report does not depend on how files
were assigned to workers. -/
theorem deployReport_map_stripThread (split : String → List String)
    (exec : String → Except String Unit) (assign assign2 : Nat → String)
    (views : List (String × String)) :
    ∀ i j, (deployReport split exec assign i views).map stripThread =
      (deployReport split exec assign2 j views).map stripThread := by
  induction views with
  | nil => intro i j; rfl
  | cons pc rest ih =>
    intro i j
    simp only [deployReport, List.map_cons]
    rw [stripThread_resultForFile split exec (assign i) (assign2 j) pc.1 pc.2]
    rw [ih (i + 1) (j + 1)]

/-- Every file in the list contributes its record to the report, at some
worker thread. -/
theorem resultForFile_mem_deployReport (split : String → List String)
    (exec : String → Except String Unit) (assign : Nat → String)
    (views : List (String × String)) (pc : String × String)
    (hpc : pc ∈ views) :
    ∀ i, ∃ t, (resultForFile split exec t pc.1 pc.2).1 ∈
      deployReport split exec assign i views := by
  induction views with
  | nil => exact absurd hpc (by simp)
  | cons q rest ih =>
    intro i
    rcases List.mem_cons.mp hpc with hq | hrest
    · subst hq
      exact ⟨assign i, by simp [deployReport]⟩
    · obtain ⟨t, ht⟩ := ih hrest (i + 1)
      exact ⟨t, by simp [deployReport, ht]⟩

/-! ### The claims -/

/-- C1: for every set of discovered input files, any run outcome (any pool
size, any worker assignment, any completion order) holds exactly one
`DeploymentResult` per discovered file — the report length equals the file
count — and a file on which the per-file executor itself raised contributes
the orchestrator's fallback record: namespace `"unknown"`, the
filename-derived name, status `"error"`. -/
theorem claim1_one_result_per_file (split : String → List String)
    (exec : String → Except String Unit) (n : Nat)
    (views : List (String × String)) (out : List TableInfo)
    (h : RunOutcome split exec n views out) :
    out.length = views.length ∧
    ∀ pc ∈ views, ∀ msg : String,
      (∀ t, process_single_view split exec t pc.1 pc.2 = Except.error msg) →
      ({ schema := "unknown", view_name := derivedName pc.1, status := "error",
         exception := some msg, file_path := pc.1,
         thread_id := "MainThread" } : TableInfo) ∈ out := by
  obtain ⟨assign, _, hperm⟩ := h
  constructor
  · rw [hperm.length_eq, deployReport_length]
  · intro pc hpc msg herr
    obtain ⟨t, ht⟩ := resultForFile_mem_deployReport split exec
      (fun i => workerName (assign i)) views pc hpc 0
    have heq : (resultForFile split exec t pc.1 pc.2).1 =
        { schema := "unknown", view_name := derivedName pc.1, status := "error",
          exception := some msg, file_path := pc.1, thread_id := "MainThread" } := by
      unfold resultForFile
      rw [herr t]
    rw [heq] at ht
    exact hperm.mem_iff.mpr ht

/-- C1 witness: a single discovered file whose header does not parse still
yields its one (fallback) result. -/
theorem claim1_witness :
    ([({ schema := "unknown", view_name := "bad", status := "error",
         exception := some unboundLocalMsg, file_path := "bad.sql",
         thread_id := "MainThread" } : TableInfo)]).length =
      ([(("bad.sql" : String), ("SELECT 1" : String))]).length ∧
    ∀ pc ∈ [(("bad.sql" : String), ("SELECT 1" : String))], ∀ msg : String,
      (∀ t, process_single_view (fun s => [s]) (fun _ => Except.ok ()) t pc.1 pc.2 =
        Except.error msg) →
      ({ schema := "unknown", view_name := derivedName pc.1, status := "error",
         exception := some msg, file_path := pc.1,
         thread_id := "MainThread" } : TableInfo) ∈
        [({ schema := "unknown", view_name := "bad", status := "error",
             exception := some unboundLocalMsg, file_path := "bad.sql",
             thread_id := "MainThread" } : TableInfo)] :=
  claim1_one_result_per_file (fun s => [s]) (fun _ => Except.ok ()) 1
    [("bad.sql", "SELECT 1")]
    [{ schema := "unknown", view_name := "bad", status := "error",
       exception := some unboundLocalMsg, file_path := "bad.sql",
       thread_id := "MainThread" }]
    ⟨fun _ => 0, fun _ => Nat.one_pos, by decide⟩

/-- C2 (code bug): no input ever yields status `"empty"`.  The
`sql.strip() == ""` check of line 71 sits after the header match of line 53,
which only succeeds on text starting with `CREATE`, so the `"empty"` branch
is dead code; a header-only file (empty body after the header) is executed
as a statement instead and yields `"ok"` on an accepting backend. -/
theorem claim2_empty_status_unreachable (split : String → List String)
    (exec : String → Except String Unit) (t p sql : String) :
    (resultForFile split exec t p sql).1.status ≠ "empty" ∧
    (resultForFile (fun s => [s]) (fun _ => Except.ok ()) "ViewWorker_0" "v.sql"
        "CREATE VIEW \"S\".\"V\"").1.status = "ok" := by
  constructor
  · unfold resultForFile
    rcases hp : process_single_view split exec t p sql with exc | r
    · simp
    · exact process_ok_status_ne_empty split exec t p sql r hp
  · rfl

/-- C3: in a file splitting into statements `A, B, C, ...` where `A` succeeds
and `B` fails with a non-"already exists" error, the executor records exactly
one failed-statement entry, referencing `B`'s (stripped) text, and the
backend is invoked on `A` and `B` only — `C` is never executed. -/
theorem claim3_fail_fast_failed_statement (split : String → List String)
    (exec : String → Except String Unit) (t p sql k ns nm A B C : String)
    (rest : List String) (e : String)
    (hm : headerMatch sql = some (k, ns, nm))
    (hsplit : split sql = A :: B :: C :: rest)
    (hA : exec A = Except.ok ())
    (hB : exec B = Except.error e)
    (hnot : pyContains (pyLower (pyReplaceAll e "\n" " ")) "already exists" = false)
    (hBne : pyStrip B ≠ "") :
    process_single_view split exec t p sql =
      Except.ok
        ({ schema := ns, view_name := nm, status := "error",
           exception := some (pyReplaceAll e "\n" " "), file_path := p,
           thread_id := t },
         [{ schema := ns, view_name := nm, sql := pyStrip B,
            error := pyReplaceAll e "\n" " ", file_path := p, thread_id := t }]) ∧
    executedStatements exec (split sql) = [A, B] := by
  have hrun : runStatements exec (split sql) = some (pyStrip B, e) := by
    rw [hsplit]
    simp [runStatements, hA, hB]
  constructor
  · unfold process_single_view
    rw [hm]
    dsimp only
    rw [if_neg (headerMatch_strip_ne sql _ hm), hrun]
    dsimp only
    rw [if_neg (by simp [hnot]), if_pos hBne]
  · rw [hsplit]
    simp [executedStatements, hA, hB]

/-- C3 witness: a three-statement file where the second statement fails. -/
theorem claim3_witness :
    process_single_view (fun _ => ["A", "B", "C"])
      (fun s => if s = "A" then Except.ok () else Except.error "boom")
      "T" "f.sql" "CREATE VIEW \"S\".\"V\" AS SELECT 1" =
      Except.ok
        ({ schema := "S", view_name := "V", status := "error",
           exception := some (pyReplaceAll "boom" "\n" " "), file_path := "f.sql",
           thread_id := "T" },
         [{ schema := "S", view_name := "V", sql := pyStrip "B",
            error := pyReplaceAll "boom" "\n" " ", file_path := "f.sql",
            thread_id := "T" }]) ∧
    executedStatements (fun s => if s = "A" then Except.ok () else Except.error "boom")
      ((fun _ => ["A", "B", "C"]) "CREATE VIEW \"S\".\"V\" AS SELECT 1") = ["A", "B"] :=
  claim3_fail_fast_failed_statement (fun _ => ["A", "B", "C"])
    (fun s => if s = "A" then Except.ok () else Except.error "boom")
    "T" "f.sql" "CREATE VIEW \"S\".\"V\" AS SELECT 1" "VIEW" "S" "V" "A" "B" "C"
    [] "boom" rfl rfl rfl rfl (by decide) (by decide)

/-- C4: for every completed run, the exit code is 1 exactly when some result
has status `"error"` (so `"already"` and `"empty"` never raise it), and the
exit code does not depend on whether the report write succeeded. -/
theorem claim4_exit_code_iff_error (split : String → List String)
    (exec : String → Except String Unit) (assign : Nat → String)
    (views : List (String × String)) (writeOk : Bool) :
    ((pyMain split exec assign views writeOk).exitCode = 1 ↔
      ∃ r ∈ (pyMain split exec assign views writeOk).results,
        r.status = "error") ∧
    (pyMain split exec assign views writeOk).exitCode =
      (pyMain split exec assign views (!writeOk)).exitCode := by
  by_cases hv : views = []
  · subst hv
    constructor
    · simp [pyMain, deploy_views_threaded, mainExitCode]
    · rfl
  · have hR : ∀ b, pyMain split exec assign views b =
        { exitCode := mainExitCode (deployReport split exec assign 0 views),
          results := deployReport split exec assign 0 views,
          warnedNoFiles := false, reportWritten := b } := by
      intro b
      unfold pyMain deploy_views_threaded
      rw [if_neg hv]
    rw [hR writeOk, hR (!writeOk)]
    exact ⟨mainExitCode_eq_one _, rfl⟩

/-- C5: a statement failure whose message contains "already exists"
(case-insensitively) gives the file status `"already"` (not `"error"`) with
the message captured in the error-detail field, and such a result alone
leaves the exit code at 0. -/
theorem claim5_already_exists_soft (split : String → List String)
    (exec : String → Except String Unit) (t p sql k ns nm ls e : String)
    (hm : headerMatch sql = some (k, ns, nm))
    (hrun : runStatements exec (split sql) = some (ls, e))
    (ha : pyContains (pyLower (pyReplaceAll e "\n" " ")) "already exists" = true) :
    process_single_view split exec t p sql =
      Except.ok
        ({ schema := ns, view_name := nm, status := "already",
           exception := some (pyReplaceAll e "\n" " "), file_path := p,
           thread_id := t }, []) ∧
    mainExitCode
      [{ schema := ns, view_name := nm, status := "already",
         exception := some (pyReplaceAll e "\n" " "), file_path := p,
         thread_id := t }] = 0 := by
  constructor
  · unfold process_single_view
    rw [hm]
    dsimp only
    rw [if_neg (headerMatch_strip_ne sql _ hm), hrun]
    dsimp only
    rw [if_pos ha]
  · rfl

/-- C5 witness: a backend rejecting the statement with
"Object ORDERS already exists". -/
theorem claim5_witness :
    process_single_view (fun _ => ["X"])
      (fun _ => Except.error "Object ORDERS already exists")
      "T" "v.sql" "CREATE VIEW \"S\".\"ORDERS\" AS X" =
      Except.ok
        ({ schema := "S", view_name := "ORDERS", status := "already",
           exception := some (pyReplaceAll "Object ORDERS already exists" "\n" " "),
           file_path := "v.sql", thread_id := "T" }, []) ∧
    mainExitCode
      [{ schema := "S", view_name := "ORDERS", status := "already",
         exception := some (pyReplaceAll "Object ORDERS already exists" "\n" " "),
         file_path := "v.sql", thread_id := "T" }] = 0 :=
  claim5_already_exists_soft (fun _ => ["X"])
    (fun _ => Except.error "Object ORDERS already exists")
    "T" "v.sql" "CREATE VIEW \"S\".\"ORDERS\" AS X" "VIEW" "S" "ORDERS"
    (pyStrip "X") "Object ORDERS already exists" rfl rfl (by decide)

/-- C6 (code bug): when the header does not match, the executor raises —
line 55's descriptive `ValueError` makes the `except` block of line 83 touch
the still-unassigned `table_info`, so the interpreter raises
`UnboundLocalError` instead — and the orchestrator's fallback (lines 151-161)
records status `"error"`, namespace `"unknown"` and the file-stem name, but
with the interpreter's message, not the descriptive one. -/
theorem claim6_header_no_match_fallback (split : String → List String)
    (exec : String → Except String Unit) (t p sql : String)
    (h : headerMatch sql = none) :
    process_single_view split exec t p sql = Except.error unboundLocalMsg ∧
    resultForFile split exec t p sql =
      ({ schema := "unknown", view_name := derivedName p, status := "error",
         exception := some unboundLocalMsg, file_path := p,
         thread_id := "MainThread" }, []) := by
  have h1 : process_single_view split exec t p sql = Except.error unboundLocalMsg := by
    unfold process_single_view
    rw [h]
  refine ⟨h1, ?_⟩
  unfold resultForFile
  rw [h1]

/-- C6 witness: a file whose text does not start with a CREATE header. -/
theorem claim6_witness :
    process_single_view (fun s => [s]) (fun _ => Except.ok ()) "w"
      "reports/bad.sql" "SELECT 1" = Except.error unboundLocalMsg ∧
    resultForFile (fun s => [s]) (fun _ => Except.ok ()) "w"
      "reports/bad.sql" "SELECT 1" =
      ({ schema := "unknown", view_name := derivedName "reports/bad.sql",
         status := "error", exception := some unboundLocalMsg,
         file_path := "reports/bad.sql", thread_id := "MainThread" }, []) :=
  claim6_header_no_match_fallback (fun s => [s]) (fun _ => Except.ok ()) "w"
    "reports/bad.sql" "SELECT 1" rfl

/-- C7: a run whose pattern matched zero files terminates successfully: a
warning (not an error), an empty report, no report file written, and exit
code 0. -/
theorem claim7_zero_files_success (split : String → List String)
    (exec : String → Except String Unit) (assign : Nat → String)
    (writeOk : Bool) :
    pyMain split exec assign [] writeOk =
      { exitCode := 0, results := [], warnedNoFiles := true,
        reportWritten := false } := rfl

/-! ### C8: pool-size independence

`DeploymentResult` carries the worker identifier (`thread_id`), and a pool of
size 1 names every worker `ViewWorker_0` while a pool of size 10 may process
a file on `ViewWorker_1`; the sets of full records therefore can differ.
After blanking `thread_id` the outcome is independent of the pool size. -/

/-- A splitter that treats the whole file as one statement. -/
def sampleSplit : String → List String := fun s => [s]

/-- A backend accepting every statement. -/
def sampleExecOk : String → Except String Unit := fun _ => Except.ok ()

/-- Two well-formed discovered files. -/
def cexViews : List (String × String) :=
  [("views/a.sql", "CREATE VIEW \"S\".\"A\" AS SELECT 1"),
   ("views/b.sql", "CREATE VIEW \"S\".\"B\" AS SELECT 2")]

/-- With one worker, both files run on `ViewWorker_0`. -/
def cexOutPool1 : List TableInfo :=
  deployReport sampleSplit sampleExecOk (fun _ => workerName 0) 0 cexViews

/-- With ten workers, the second file may run on `ViewWorker_1`. -/
def cexOutPool10 : List TableInfo :=
  deployReport sampleSplit sampleExecOk
    (fun i => workerName (if i = 1 then 1 else 0)) 0 cexViews

/-- C8 counterexample: the claim as stated is false — with fixed inputs and a
fixed backend, a pool of size 1 and a pool of size 10 can produce different
sets of `DeploymentResult` values, because the records include the worker
identifier and pool size 10 can use `ViewWorker_1`, a thread name pool size 1
never uses. -/
theorem claim8_pool_size_counterexample :
    RunOutcome sampleSplit sampleExecOk 1 cexViews cexOutPool1 ∧
    RunOutcome sampleSplit sampleExecOk 10 cexViews cexOutPool10 ∧
    (cexOutPool1 : Multiset TableInfo) ≠ (cexOutPool10 : Multiset TableInfo) := by
  refine ⟨⟨fun _ => 0, fun _ => Nat.one_pos, List.Perm.refl _⟩,
    ⟨fun i => if i = 1 then 1 else 0, fun i => ?_, List.Perm.refl _⟩, ?_⟩
  · dsimp only
    split <;> decide
  · intro h
    rw [Multiset.coe_eq_coe] at h
    have hmem : ({ schema := "S", view_name := "B", status := "ok",
                   exception := none, file_path := "views/b.sql",
                   thread_id := "ViewWorker_1" } : TableInfo) ∈ cexOutPool10 := by
      decide
    have hnot : ({ schema := "S", view_name := "B", status := "ok",
                   exception := none, file_path := "views/b.sql",
                   thread_id := "ViewWorker_1" } : TableInfo) ∉ cexOutPool1 := by
      decide
    exact hnot (h.mem_iff.mpr hmem)

/-- C8 (amended): for fixed inputs and a fixed backend, two runs with any
pool sizes produce the same multiset of `DeploymentResult` values once the
worker-identifier field is disregarded — the outcome up to worker attribution
and order depends only on the inputs. -/
theorem claim8_pool_size_amended (split : String → List String)
    (exec : String → Except String Unit) (views : List (String × String))
    (n m : Nat) (outn outm : List TableInfo)
    (hn : RunOutcome split exec n views outn)
    (hm : RunOutcome split exec m views outm) :
    ((outn.map stripThread : List TableInfo) : Multiset TableInfo) =
      ((outm.map stripThread : List TableInfo) : Multiset TableInfo) := by
  obtain ⟨a1, _, hp1⟩ := hn
  obtain ⟨a2, _, hp2⟩ := hm
  rw [Multiset.coe_eq_coe]
  have h1 := hp1.map stripThread
  have h2 := hp2.map stripThread
  rw [deployReport_map_stripThread split exec (fun i => workerName (a1 i))
    (fun i => workerName (a2 i)) views 0 0] at h1
  exact h1.trans h2.symm

/-- C8 witness: the two concrete runs of the counterexample agree once the
worker identifiers are blanked. -/
theorem claim8_amended_witness :
    ((cexOutPool1.map stripThread : List TableInfo) : Multiset TableInfo) =
      ((cexOutPool10.map stripThread : List TableInfo) : Multiset TableInfo) :=
  claim8_pool_size_amended sampleSplit sampleExecOk cexViews 1 10
    cexOutPool1 cexOutPool10
    ⟨fun _ => 0, fun _ => Nat.one_pos, List.Perm.refl _⟩
    ⟨fun i => if i = 1 then 1 else 0,
     fun i => by dsimp only; split <;> decide, List.Perm.refl _⟩

/-- C9: when the k-th statement of a file fails with an "already exists"
message, no statement after the k-th is executed — the within-file fail-fast
applies to the soft `already` classification exactly as to hard failures —
and the file's status is `"already"`. -/
theorem claim9_already_fail_fast (split : String → List String)
    (exec : String → Except String Unit) (t p sql k ns nm : String)
    (pre : List String) (b : String) (rest : List String) (e : String)
    (hm : headerMatch sql = some (k, ns, nm))
    (hsplit : split sql = pre ++ b :: rest)
    (hpre : ∀ s ∈ pre, exec s = Except.ok ())
    (hb : exec b = Except.error e)
    (ha : pyContains (pyLower (pyReplaceAll e "\n" " ")) "already exists" = true) :
    process_single_view split exec t p sql =
      Except.ok
        ({ schema := ns, view_name := nm, status := "already",
           exception := some (pyReplaceAll e "\n" " "), file_path := p,
           thread_id := t }, []) ∧
    executedStatements exec (split sql) = pre ++ [b] := by
  have hrun : runStatements exec (split sql) = some (pyStrip b, e) := by
    rw [hsplit, runStatements_append exec pre _ hpre]
    simp [runStatements, hb]
  constructor
  · unfold process_single_view
    rw [hm]
    dsimp only
    rw [if_neg (headerMatch_strip_ne sql _ hm), hrun]
    dsimp only
    rw [if_pos ha]
  · rw [hsplit, executedStatements_append exec pre b rest hpre]
    simp [executedStatements, hb]

/-- C9 witness: the second of three statements fails with an
"already exists" message; the third is never executed. -/
theorem claim9_witness :
    process_single_view (fun _ => ["A", "B", "C"])
      (fun s => if s = "B" then Except.error "Object B already exists"
        else Except.ok ())
      "T" "v.sql" "CREATE VIEW \"S\".\"V\" AS SELECT 1" =
      Except.ok
        ({ schema := "S", view_name := "V", status := "already",
           exception := some (pyReplaceAll "Object B already exists" "\n" " "),
           file_path := "v.sql", thread_id := "T" }, []) ∧
    executedStatements
      (fun s => if s = "B" then Except.error "Object B already exists"
        else Except.ok ())
      ((fun _ => ["A", "B", "C"]) "CREATE VIEW \"S\".\"V\" AS SELECT 1") =
      ["A"] ++ ["B"] :=
  claim9_already_fail_fast (fun _ => ["A", "B", "C"])
    (fun s => if s = "B" then Except.error "Object B already exists"
      else Except.ok ())
    "T" "v.sql" "CREATE VIEW \"S\".\"V\" AS SELECT 1" "VIEW" "S" "V"
    ["A"] "B" ["C"] "Object B already exists"
    rfl rfl (by intro s hs; rw [List.mem_singleton] at hs; subst hs; rfl)
    rfl (by decide)

/-- C10: the filename-derived fallback name removes every occurrence of the
substring ".sql" from the basename, not only a trailing extension: the path
"views/a.sql.bak.sql" derives the name "a.bak", not "a.sql.bak". -/
theorem claim10_derived_name (split : String → List String)
    (exec : String → Except String Unit) (t : String) :
    derivedName "views/a.sql.bak.sql" = "a.bak" ∧
    derivedName "views/a.sql.bak.sql" ≠ "a.sql.bak" ∧
    (resultForFile split exec t "views/a.sql.bak.sql" "SELECT 1").1.view_name =
      "a.bak" := by
  refine ⟨by decide, by decide, ?_⟩
  rfl

end DeployObjects
